import Mathlib

/-!
Shallow embedding of the PGlite process supervisor
(src/py_pglite/manager.py, class PGliteManager).

The embedding models the supervisor state machine: the stored child-process
handle, the conflict-reclamation scan, stale-socket cleanup, the spawn and
readiness polling loop of start(), the terminate/wait/kill sequence of stop(),
the liveness accessors, and the application-level readiness retry loop.
External effects (the OS process table, the filesystem, probe outcomes,
wall-clock ticks of the 0.5 second polling interval) are supplied as explicit
environment values, so every definition is executable on concrete inputs.
-/

namespace PyPglite

/-- Python substring test: `needle in hay` on strings.
Used by the reclamation scan for both the command-line match and the
bidirectional working-directory containment heuristic (manager.py lines
195-201). -/
def strIn (needle hay : String) : Bool :=
  (List.range (hay.data.length + 1)).any
    (fun i => needle.data.isPrefixOf (hay.data.drop i))

/-- Model of str(Path(p).parent): the text up to the final slash, with the
usual degenerate cases (no slash gives ".", a single leading slash gives "/").
Used to compute my_socket_dir from the configured socket path
(manager.py line 193). -/
def pathParent (p : String) : String :=
  match p.data.reverse.dropWhile (fun c => c != '/') with
  | [] => "."
  | ['/'] => "/"
  | _ :: rest => String.mk rest.reverse

/-- Python slicing s[:n] on a string, by characters. -/
def pySlice (s : String) (n : Nat) : String :=
  String.mk (s.data.take n)

/-- Configuration fields of PGliteConfig that the supervisor reads:
the socket path, the startup timeout in seconds, and the cleanup flag
consulted by stop(). -/
structure PGliteConfig where
  socket_path : String
  timeout : Nat
  cleanup_on_exit : Bool
deriving Repr, DecidableEq

/-- Snapshot of the stored subprocess handle (self.process when not None).
The alive flag records what poll() reports: true means poll() is None,
meaning the child has not exited. -/
structure Handle where
  alive : Bool
deriving Repr, DecidableEq

/-- Mutable manager state relevant to the lifecycle claims: the optional
process handle (self.process). -/
structure MgrState where
  process : Option Handle
deriving Repr, DecidableEq

/-- One row of the psutil process-table snapshot consumed by
_kill_existing_processes: pid, command line, and working directory. -/
structure ProcEntry where
  pid : Nat
  cmdline : List String
  cwd : String
deriving Repr, DecidableEq

/-- External world threaded through start(): the process-wide current working
directory, the set of existing filesystem paths, and the process-table
snapshot. -/
structure World where
  cwd : String
  files : List String
  table : List ProcEntry
deriving Repr, DecidableEq

/-- Deletion of a path from the file set (Path.unlink). -/
def fsRemove (files : List String) (p : String) : List String :=
  files.filter (fun q => q != p)

/-- Existence test for a path (Path.exists). -/
def fsExists (files : List String) (p : String) : Bool :=
  files.contains p

/-- Name of the generated launcher artifact that the reclamation scan looks
for inside candidate command lines (manager.py line 196). -/
def launcherName : String := "pglite_manager.js"

/-- Command-line match of _kill_existing_processes: some argument of the
candidate contains the launcher file name as a substring. -/
def cmdlineMatches (p : ProcEntry) : Bool :=
  p.cmdline.any (fun c => strIn launcherName c)

/-- Bidirectional containment heuristic of _kill_existing_processes
(manager.py line 201): my_socket_dir in proc_cwd or proc_cwd in
my_socket_dir, both being Python substring tests. -/
def dirHeuristic (mySocketDir cwd : String) : Bool :=
  strIn mySocketDir cwd || strIn cwd mySocketDir

/-- Full kill predicate of the reclamation scan: command line references the
launcher artifact and the directory heuristic fires. -/
def shouldKill (mySocketDir : String) (p : ProcEntry) : Bool :=
  cmdlineMatches p && dirHeuristic mySocketDir p.cwd

/-- The reclamation scan _kill_existing_processes as a pure function of the
process-table snapshot: pids of the entries it kills. -/
def kill_existing_processes (cfg : PGliteConfig) (table : List ProcEntry) :
    List Nat :=
  (table.filter (shouldKill (pathParent cfg.socket_path))).map
    (fun p => p.pid)

/-- Best-effort socket deletion _cleanup_socket: if the path exists, try to
unlink it; an unlink failure is logged and swallowed. -/
def cleanupSocket (cfg : PGliteConfig) (unlinkRaises : Bool)
    (files : List String) : List String :=
  if fsExists files cfg.socket_path then
    if unlinkRaises then files
    else fsRemove files cfg.socket_path
  else files

/-- Environment consumed by one start() call. The three tick-indexed oracles
describe, at each iteration of the 0.5 second polling loop, whether poll()
still reports the child alive, whether the socket file exists, and whether a
connect-and-close handshake at that moment would succeed. communicateOut
describes the result of process.communicate(timeout=2) in the death branch:
none models TimeoutExpired, some stdout models a returned (possibly absent or
empty) combined output. -/
structure StartEnv where
  procAlive : Nat → Bool
  socketExists : Nat → Bool
  probeOk : Nat → Bool
  communicateOut : Option (Option String)
  unlinkRaisesPre : Bool
  workDir : String

/-- Exit of the readiness polling loop. -/
inductive LoopExit where
  | ok
  | died (tick : Nat)
  | timedOut
deriving Repr, DecidableEq

/-- Number of iterations the while loop of start() performs: the loop runs
while elapsed time is below the configured timeout and sleeps 0.5 seconds per
iteration, so timeout seconds give 2 * timeout iterations under an ideal
clock. -/
def loopFuel (cfg : PGliteConfig) : Nat := 2 * cfg.timeout

/-- Readiness polling loop of start() (manager.py lines 282-317), transcribed
clause by clause. Each iteration first checks poll(); then, only when the
socket exists AND ready_logged is still false, it sets ready_logged to true
and attempts the handshake, breaking on success and falling through to the
sleep on failure; otherwise it just sleeps. Note that ready_logged is set
before the probe attempt, exactly as in the source. -/
def readinessLoop (env : StartEnv) (readyLogged : Bool) (tick fuel : Nat) :
    LoopExit :=
  match fuel with
  | 0 => .timedOut
  | fuel' + 1 =>
    if env.procAlive tick = false then
      .died tick
    else if env.socketExists tick && !readyLogged then
      if env.probeOk tick then .ok
      else readinessLoop env true (tick + 1) fuel'
    else readinessLoop env readyLogged (tick + 1) fuel'

/-- Secondary timeout, in seconds, passed to communicate() when reading the
diagnostic output of a child that died during startup (manager.py line
287). -/
def communicateTimeoutBound : Nat := 2

/-- Python `stdout[:1000] if stdout else "No output"`: the falsy cases (None
or the empty string) give the placeholder, otherwise the first 1000
characters. -/
def limitOutput (stdout : Option String) : String :=
  match stdout with
  | some s => if s = "" then "No output" else pySlice s 1000
  | none => "No output"

/-- Diagnostic text for the death branch: result of communicate(timeout=2)
when it returns, or the fixed placeholder when it raises TimeoutExpired. -/
def diagnosticOutput (communicateOut : Option (Option String)) : String :=
  match communicateOut with
  | some stdout => limitOutput stdout
  | none => "Process output timeout"

/-- Message of the RuntimeError raised when the child dies during startup
(manager.py lines 294-296). The elapsed time at the raise site is passed in
to model everything available there; the source message is built from the
diagnostic output alone. -/
def deathMessage (communicateOut : Option (Option String)) (_elapsed : Nat) :
    String :=
  "PGlite process died during startup. Output: " ++
    diagnosticOutput communicateOut

/-- Message of the RuntimeError raised on startup timeout (manager.py lines
330-332). -/
def timeoutMessage (cfg : PGliteConfig) : String :=
  "PGlite server failed to start within " ++ toString cfg.timeout ++
    " seconds"

/-- Timeout bounds, in seconds, of the wait calls performed by the cleanup
sequence of the timeout branch of start() (manager.py lines 320-328), in
order; none records a wait() call made without a timeout argument. When the
child is still alive: terminate, then wait(timeout=5); if that expires, kill,
then a bare wait(). -/
def timeoutCleanupWaits (stillAlive gracefulWithin5 : Bool) :
    List (Option Nat) :=
  if stillAlive then
    if gracefulWithin5 then [some 5]
    else [some 5, none]
  else []

/-- Observable result of one start() call. -/
inductive StartOutcome where
  | alreadyRunning
  | ok
  | raisedStartupError (msg : String)
deriving Repr, DecidableEq

/-- Result record of one start() call: the manager state, the world, and the
outcome. -/
structure StartRun where
  state : MgrState
  world : World
  outcome : StartOutcome
deriving Repr, DecidableEq

/-- The start() method (manager.py lines 231-337). Guard: a non-None stored
handle logs and returns at once. Otherwise: reclamation scan, stale-socket
removal, save of the current working directory, chdir into the work
directory, spawn, readiness loop, and on timeout the terminate/kill cleanup;
a finally block restores the saved working directory when it is truthy. The
stored handle is assigned at spawn and is not cleared on either failure
path, exactly as in the source. -/
def start (cfg : PGliteConfig) (st : MgrState) (w : World) (env : StartEnv) :
    StartRun :=
  if st.process.isSome then
    { state := st, world := w, outcome := .alreadyRunning }
  else
    let killed := kill_existing_processes cfg w.table
    let table1 := w.table.filter (fun p => !(killed.contains p.pid))
    let files1 := cleanupSocket cfg env.unlinkRaisesPre w.files
    let originalCwd := w.cwd
    let inWork : World := { cwd := env.workDir, files := files1, table := table1 }
    let spawned : MgrState := { process := some { alive := true } }
    let post :=
      match readinessLoop env false 0 (loopFuel cfg) with
      | .ok => (spawned, StartOutcome.ok)
      | .died t =>
          ({ process := some { alive := false } },
           StartOutcome.raisedStartupError (deathMessage env.communicateOut t))
      | .timedOut =>
          ({ process := some { alive := false } },
           StartOutcome.raisedStartupError (timeoutMessage cfg))
    let restored : World :=
      { inWork with cwd := if originalCwd != "" then originalCwd else inWork.cwd }
    { state := post.1, world := restored, outcome := post.2 }

/-- Environment consumed by one stop() call: whether terminate() raises,
whether the graceful wait(timeout=5) returns before expiring, whether kill()
raises, and whether the unlink inside the configured socket cleanup
raises. -/
structure StopEnv where
  terminateRaises : Bool
  gracefulWithin5 : Bool
  killRaises : Bool
  unlinkRaises : Bool
deriving Repr, DecidableEq

/-- Try-block of stop() (manager.py lines 344-363) in the exception monad:
terminate, graceful wait bounded by 5, escalation to kill with a wait bounded
by 2 whose own TimeoutExpired is caught and logged as an error. Errors from
terminate() or kill() escape this body and are caught by the handler in
stop. -/
def stopBody (env : StopEnv) : Except String Unit :=
  if env.terminateRaises then .error "terminate raised"
  else if env.gracefulWithin5 then .ok ()
  else if env.killRaises then .error "kill raised"
  else .ok ()

/-- The stop() method (manager.py lines 339-370). Early return when no handle
is stored. Every exception from the body is caught and logged; the finally
block clears the handle and, when cleanup_on_exit is set, deletes the socket
best-effort. The Except result witnesses that no branch propagates an
error. -/
def stop (cfg : PGliteConfig) (st : MgrState) (files : List String)
    (env : StopEnv) : Except String (MgrState × List String) :=
  if st.process.isNone then
    .ok (st, files)
  else
    let files1 :=
      if cfg.cleanup_on_exit then cleanupSocket cfg env.unlinkRaises files
      else files
    match stopBody env with
    | .ok _ => .ok ({ process := none }, files1)
    | .error _ => .ok ({ process := none }, files1)

/-- Liveness poll of the stored handle: for a held handle this is the poll()
result, for an absent handle the conjunction in is_running short-circuits to
false. -/
def pollAlive : Option Handle → Bool
  | some h => h.alive
  | none => false

/-- The is_running() method: self.process is not None and poll() is None. -/
def is_running (st : MgrState) : Bool :=
  st.process.isSome && pollAlive st.process

/-- Message of the RuntimeError raised by the accessors when the server is
not running. -/
def notRunningMsg : String :=
  "PGlite server is not running. Call start() first."

/-- Modelled from the spec: the connection-string derivation of the
configuration object (config.py, not part of the supervisor source under
src/). The spec requires only that the accessor return a string referencing
the configured endpoint path. -/
def config_get_connection_string (cfg : PGliteConfig) : String :=
  "postgresql+psycopg://postgres:postgres@/postgres?host=" ++ cfg.socket_path

/-- Modelled from the spec: the DSN derivation of the configuration object
(config.py, not part of the supervisor source under src/), a string
referencing the configured endpoint path. -/
def config_get_dsn (cfg : PGliteConfig) : String :=
  "host=" ++ cfg.socket_path ++ " dbname=postgres user=postgres"

/-- Modelled from the spec: the psycopg URI derivation of the configuration
object (config.py, not part of the supervisor source under src/), a string
referencing the configured endpoint path. -/
def config_get_psycopg_uri (cfg : PGliteConfig) : String :=
  "postgresql://postgres:postgres@/postgres?host=" ++ cfg.socket_path

/-- The get_connection_string() accessor (manager.py lines 376-388). -/
def get_connection_string (cfg : PGliteConfig) (st : MgrState) :
    Except String String :=
  if !is_running st then .error notRunningMsg
  else .ok (config_get_connection_string cfg)

/-- The get_dsn() accessor (manager.py lines 390-399). -/
def get_dsn (cfg : PGliteConfig) (st : MgrState) : Except String String :=
  if !is_running st then .error notRunningMsg
  else .ok (config_get_dsn cfg)

/-- The get_psycopg_uri() accessor (manager.py lines 458-469). -/
def get_psycopg_uri (cfg : PGliteConfig) (st : MgrState) :
    Except String String :=
  if !is_running st then .error notRunningMsg
  else .ok (config_get_psycopg_uri cfg)

/-- Outcome of one iteration of the connectivity probe inside
wait_for_ready_basic: the probe reports ready, reports not ready, or throws
(the thrown case is caught by the except clause around the attempt). -/
inductive ProbeOutcome where
  | ok
  | notReady
  | raises
deriving Repr, DecidableEq

/-- Boolean result of the retry loop of wait_for_ready_basic (manager.py
lines 413-432): attempt the probe; return true on the first success; on a
not-ready report or a caught exception continue with the next attempt; when
the attempts are exhausted return false. -/
def wfrResult (probe : Nat → ProbeOutcome) (attempt fuel : Nat) : Bool :=
  match fuel with
  | 0 => false
  | fuel' + 1 =>
    match probe attempt with
    | .ok => true
    | _ => wfrResult probe (attempt + 1) fuel'

/-- The wait_for_ready_basic(max_retries, delay) method, result component. -/
def wait_for_ready_basic (probe : Nat → ProbeOutcome) (maxRetries : Nat) :
    Bool :=
  wfrResult probe 0 maxRetries

/-- The wait_for_ready method, an alias of wait_for_ready_basic (manager.py
lines 434-447). -/
def wait_for_ready (probe : Nat → ProbeOutcome) (maxRetries : Nat) : Bool :=
  wait_for_ready_basic probe maxRetries

/-- Number of probe attempts actually performed by the retry loop. -/
def wfrAttempts (probe : Nat → ProbeOutcome) (attempt fuel : Nat) : Nat :=
  match fuel with
  | 0 => 0
  | fuel' + 1 =>
    match probe attempt with
    | .ok => 1
    | _ => 1 + wfrAttempts probe (attempt + 1) fuel'

/-- Sleeps performed between consecutive attempts of the retry loop: the
source sleeps the configured delay after every attempt that neither returned
nor was the last one (manager.py lines 425-426). The small fixed stability
sleep taken just before a successful return is not an inter-attempt delay
and is not recorded here. -/
def wfrSleeps {α : Type} (probe : Nat → ProbeOutcome) (delay : α)
    (maxRetries attempt fuel : Nat) : List α :=
  match fuel with
  | 0 => []
  | fuel' + 1 =>
    match probe attempt with
    | .ok => []
    | _ =>
      if attempt < maxRetries - 1 then
        delay :: wfrSleeps probe delay maxRetries (attempt + 1) fuel'
      else
        wfrSleeps probe delay maxRetries (attempt + 1) fuel'

/-- Inter-attempt sleeps of one wait_for_ready_basic call. -/
def wait_sleeps {α : Type} (probe : Nat → ProbeOutcome) (delay : α)
    (maxRetries : Nat) : List α :=
  wfrSleeps probe delay maxRetries 0 maxRetries

/-- One attempt of the try-block of wait_for_ready_basic in the exception
monad: a raising probe produces an error, which the except clause of the
source catches. -/
def attemptOnce (probe : Nat → ProbeOutcome) (i : Nat) :
    Except String Bool :=
  match probe i with
  | .ok => .ok true
  | .notReady => .ok false
  | .raises => .error "probe raised"

/-- The retry loop with its exception handling made explicit: every probe
attempt runs guarded, and a caught error simply advances to the next
attempt. The Except result witnesses that no attempt propagates an error out
of the method. -/
def wfrE (probe : Nat → ProbeOutcome) (attempt fuel : Nat) :
    Except String Bool :=
  match fuel with
  | 0 => .ok false
  | fuel' + 1 =>
    match attemptOnce probe attempt with
    | .ok true => .ok true
    | .ok false => wfrE probe (attempt + 1) fuel'
    | .error _ => wfrE probe (attempt + 1) fuel'

/-- Concrete configuration for the scenario theorems: a socket under /tmp/pg
and a three second startup timeout. -/
def cfg0 : PGliteConfig :=
  { socket_path := "/tmp/pg/.s.PGSQL.5432", timeout := 3, cleanup_on_exit := true }

/-- Concrete initial world: a caller working directory, no files, an empty
process table. -/
def w0 : World := { cwd := "/home/user", files := [], table := [] }

/-- Environment of the single-failed-handshake scenario: the socket file
exists from the first poll on, the child stays alive throughout, and the
connect-and-close handshake fails at tick 0 but would succeed at every later
tick. -/
def envFirstProbeFails : StartEnv :=
  { procAlive := fun _ => true, socketExists := fun _ => true,
    probeOk := fun t => t != 0, communicateOut := some none,
    unlinkRaisesPre := false, workDir := "/tmp/w" }

/-- Environment in which the child exits immediately with some buffered
output. -/
def envDead : StartEnv :=
  { procAlive := fun _ => false, socketExists := fun _ => false,
    probeOk := fun _ => false, communicateOut := some (some "bind error"),
    unlinkRaisesPre := false, workDir := "/tmp/w" }

/-- Environment in which the server is immediately ready: the socket exists
and the first handshake succeeds. -/
def envReady : StartEnv :=
  { procAlive := fun _ => true, socketExists := fun _ => true,
    probeOk := fun _ => true, communicateOut := some none,
    unlinkRaisesPre := false, workDir := "/tmp/w" }

/-- Environment in which the endpoint file never appears and the child never
exits. -/
def envNever : StartEnv :=
  { procAlive := fun _ => true, socketExists := fun _ => false,
    probeOk := fun _ => false, communicateOut := some none,
    unlinkRaisesPre := false, workDir := "/tmp/w" }

/-- Supervisor A of the reclamation scenario: endpoint directory /tmp/a. -/
def cfgA : PGliteConfig :=
  { socket_path := "/tmp/a/.s.PGSQL.5432", timeout := 3, cleanup_on_exit := true }

/-- Supervisor B of the reclamation scenario: endpoint directory /tmp/ab,
distinct from /tmp/a but having it as a string prefix. -/
def cfgB : PGliteConfig :=
  { socket_path := "/tmp/ab/.s.PGSQL.5432", timeout := 3, cleanup_on_exit := true }

/-- Child of supervisor A: launcher command line, working directory /tmp/a. -/
def entryA : ProcEntry :=
  { pid := 41, cmdline := ["node", "pglite_manager.js"], cwd := "/tmp/a" }

/-- Child of supervisor B: launcher command line, working directory
/tmp/ab. -/
def entryB : ProcEntry :=
  { pid := 42, cmdline := ["node", "pglite_manager.js"], cwd := "/tmp/ab" }

/-- Candidate process in an unrelated directory, for the C4 witness. -/
def entryFar : ProcEntry :=
  { pid := 77, cmdline := ["node", "pglite_manager.js"], cwd := "/home/user/project" }

/-- Probe scenario for the C8 witness: the first attempt throws, the second
reports not ready, the third reports ready. -/
def probe3 : Nat → ProbeOutcome :=
  fun i => if i = 0 then .raises else if i = 1 then .notReady else .ok

theorem fsExists_fsRemove (files : List String) (p : String) :
    fsExists (fsRemove files p) p = false := by
  simp [fsExists, fsRemove, List.contains, List.elem_eq_mem, List.mem_filter]

theorem readinessLoop_never_ready (env : StartEnv)
    (hs : ∀ i, env.socketExists i = false)
    (ha : ∀ i, env.procAlive i = true) :
    ∀ fuel readyLogged tick,
      readinessLoop env readyLogged tick fuel = .timedOut := by
  intro fuel
  induction fuel with
  | zero => intro r t; rfl
  | succ f ih =>
    intro r t
    simp only [readinessLoop, ha t, hs t, Bool.false_and, Bool.false_eq_true,
      if_false, ite_false]
    exact ih r (t + 1)



theorem wfrResult_iff (probe : Nat → ProbeOutcome) :
    ∀ fuel attempt, wfrResult probe attempt fuel = true ↔
      ∃ i, i < fuel ∧ probe (attempt + i) = .ok := by
  intro fuel
  induction fuel with
  | zero => intro a; simp [wfrResult]
  | succ f ih =>
    intro a
    cases hp : probe a with
    | ok =>
      simp only [wfrResult, hp]
      constructor
      · intro _
        exact ⟨0, Nat.succ_pos f, by simpa using hp⟩
      · intro _; trivial
    | notReady =>
      simp only [wfrResult, hp]
      rw [ih (a + 1)]
      constructor
      · rintro ⟨i, hi, h⟩
        refine ⟨i + 1, by omega, ?_⟩
        rw [show a + (i + 1) = a + 1 + i by omega]
        exact h
      · rintro ⟨i, hi, h⟩
        cases i with
        | zero =>
          rw [Nat.add_zero, hp] at h
          cases h
        | succ j =>
          refine ⟨j, by omega, ?_⟩
          rw [show a + 1 + j = a + (j + 1) by omega]
          exact h
    | raises =>
      simp only [wfrResult, hp]
      rw [ih (a + 1)]
      constructor
      · rintro ⟨i, hi, h⟩
        refine ⟨i + 1, by omega, ?_⟩
        rw [show a + (i + 1) = a + 1 + i by omega]
        exact h
      · rintro ⟨i, hi, h⟩
        cases i with
        | zero =>
          rw [Nat.add_zero, hp] at h
          cases h
        | succ j =>
          refine ⟨j, by omega, ?_⟩
          rw [show a + 1 + j = a + (j + 1) by omega]
          exact h

theorem wfrAttempts_le (probe : Nat → ProbeOutcome) :
    ∀ fuel attempt, wfrAttempts probe attempt fuel ≤ fuel := by
  intro fuel
  induction fuel with
  | zero => intro a; exact Nat.le_refl 0
  | succ f ih =>
    intro a
    cases hp : probe a with
    | ok => simp [wfrAttempts, hp]
    | notReady =>
      simp only [wfrAttempts, hp]
      have := ih (a + 1)
      omega
    | raises =>
      simp only [wfrAttempts, hp]
      have := ih (a + 1)
      omega

theorem wfrSleeps_all {α : Type} (probe : Nat → ProbeOutcome) (delay : α)
    (m : Nat) : ∀ fuel attempt,
      ∀ x ∈ wfrSleeps probe delay m attempt fuel, x = delay := by
  intro fuel
  induction fuel with
  | zero => intro a x hx; simp [wfrSleeps] at hx
  | succ f ih =>
    intro a x hx
    cases hp : probe a with
    | ok => simp [wfrSleeps, hp] at hx
    | notReady =>
      simp only [wfrSleeps, hp] at hx
      by_cases hlt : a < m - 1
      · rw [if_pos hlt] at hx
        rcases List.mem_cons.mp hx with h | h
        · exact h
        · exact ih (a + 1) x h
      · rw [if_neg hlt] at hx
        exact ih (a + 1) x hx
    | raises =>
      simp only [wfrSleeps, hp] at hx
      by_cases hlt : a < m - 1
      · rw [if_pos hlt] at hx
        rcases List.mem_cons.mp hx with h | h
        · exact h
        · exact ih (a + 1) x h
      · rw [if_neg hlt] at hx
        exact ih (a + 1) x hx

theorem wfrE_eq_ok (probe : Nat → ProbeOutcome) :
    ∀ fuel attempt,
      wfrE probe attempt fuel = .ok (wfrResult probe attempt fuel) := by
  intro fuel
  induction fuel with
  | zero => intro a; rfl
  | succ f ih =>
    intro a
    cases hp : probe a with
    | ok => simp [wfrE, wfrResult, attemptOnce, hp]
    | notReady => simp [wfrE, wfrResult, attemptOnce, hp, ih (a + 1)]
    | raises => simp [wfrE, wfrResult, attemptOnce, hp, ih (a + 1)]


theorem start_early_return (cfg : PGliteConfig) (st : MgrState) (w : World)
    (env : StartEnv) (h : st.process.isSome = true) :
    start cfg st w env = ⟨st, w, .alreadyRunning⟩ := by
  simp [start, h]

theorem start_sets_handle (cfg : PGliteConfig) (w : World) (env : StartEnv) :
    (start cfg ⟨none⟩ w env).state.process.isSome = true := by
  cases hl : readinessLoop env false 0 (loopFuel cfg) <;> simp [start, hl]

theorem start_not_early (cfg : PGliteConfig) (w : World) (env : StartEnv) :
    (start cfg ⟨none⟩ w env).outcome ≠ .alreadyRunning := by
  cases hl : readinessLoop env false 0 (loopFuel cfg) <;> simp [start, hl]

theorem stop_clears (cfg : PGliteConfig) (st : MgrState) (files : List String)
    (env : StopEnv) (h : st.process.isSome = true) :
    stop cfg st files env = .ok (⟨none⟩,
      if cfg.cleanup_on_exit then cleanupSocket cfg env.unlinkRaises files else files) := by
  cases hS : st.process with
  | none => rw [hS] at h; cases h
  | some hh =>
    have hne : st.process.isNone = false := by rw [hS]; rfl
    cases hb : stopBody env <;> simp [stop, hne, hb]

theorem fsExists_cleanupSocket (cfg : PGliteConfig) (files : List String) :
    fsExists (cleanupSocket cfg false files) cfg.socket_path = false := by
  unfold cleanupSocket
  by_cases he : fsExists files cfg.socket_path = true
  · simp [he, fsExists_fsRemove]
  · simp only [Bool.not_eq_true] at he
    simp [he]

/-- C1: the readiness loop attempts the connect-and-close probe at most once
per start() call. The source sets ready_logged to true before the first
attempt and the probe branch requires ready_logged to be false, so after one
failed handshake the probe is never attempted again and the loop can exit
only through child death or the timeout. Concretely: with the socket present
from tick 0, the child alive throughout, and a handshake that fails at tick 0
but would succeed at every later tick, the loop times out and start() raises
the timeout error, against the claim that the loop keeps attempting the probe
until one succeeds. -/
theorem C1_probe_never_retried :
    envFirstProbeFails.socketExists 0 = true
    ∧ envFirstProbeFails.procAlive 0 = true
    ∧ envFirstProbeFails.probeOk 0 = false
    ∧ envFirstProbeFails.probeOk 1 = true
    ∧ envFirstProbeFails.probeOk 2 = true
    ∧ readinessLoop envFirstProbeFails false 0 (loopFuel cfg0) = .timedOut
    ∧ (start cfg0 ⟨none⟩ w0 envFirstProbeFails).outcome = .raisedStartupError (timeoutMessage cfg0) := by
  decide

/-- C2 counterexample: a start() call that raises the child-died error leaves
the handle set (with the child no longer running), so the next start() call
on the same instance returns at the already-running guard without spawning
and without re-running reclamation or cleanup: its state and world come back
unchanged. -/
theorem C2_counterexample :
    ((start cfg0 ⟨none⟩ w0 envDead).outcome = .raisedStartupError (deathMessage envDead.communicateOut 0))
    ∧ is_running (start cfg0 ⟨none⟩ w0 envDead).state = false
    ∧ (start cfg0 (start cfg0 ⟨none⟩ w0 envDead).state w0 envReady).outcome = .alreadyRunning
    ∧ (start cfg0 (start cfg0 ⟨none⟩ w0 envDead).state w0 envReady).state = (start cfg0 ⟨none⟩ w0 envDead).state
    ∧ (start cfg0 (start cfg0 ⟨none⟩ w0 envDead).state w0 envReady).world = w0 := by
  decide

/-- C2 (amended): after a start() call that raises a startup error the handle
remains set, so a subsequent start() on the same instance returns at the
already-running guard without spawning; the object becomes re-startable only
through stop(), which always clears the handle, after which start() runs the
full sequence again (its outcome is never the early-return one). -/
theorem C2_start_after_failure (cfg : PGliteConfig) (w w2 : World)
    (env env2 : StartEnv) (files : List String) (senv : StopEnv)
    (hfail : (start cfg ⟨none⟩ w env).outcome ≠ .ok)
    (hfail2 : (start cfg ⟨none⟩ w env).outcome ≠ .alreadyRunning) :
    (start cfg (start cfg ⟨none⟩ w env).state w2 env2) = ⟨(start cfg ⟨none⟩ w env).state, w2, .alreadyRunning⟩
    ∧ (∃ files2, stop cfg (start cfg ⟨none⟩ w env).state files senv = .ok (⟨none⟩, files2))
    ∧ (start cfg ⟨none⟩ w2 env2).outcome ≠ .alreadyRunning := by
  refine ⟨?_, ?_, ?_⟩
  · exact start_early_return cfg _ w2 env2 (start_sets_handle cfg w env)
  · exact ⟨_, stop_clears cfg _ files senv (start_sets_handle cfg w env)⟩
  · exact start_not_early cfg w2 env2

/-- C2 witness: the amended theorem applied to the concrete child-dies
scenario. -/
theorem C2_start_after_failure_witness :
    ((start cfg0 ⟨none⟩ w0 envDead).outcome ≠ .ok)
    ∧ ((start cfg0 ⟨none⟩ w0 envDead).outcome ≠ .alreadyRunning)
    ∧ ((start cfg0 (start cfg0 ⟨none⟩ w0 envDead).state w0 envReady) = ⟨(start cfg0 ⟨none⟩ w0 envDead).state, w0, .alreadyRunning⟩
      ∧ (∃ files2, stop cfg0 (start cfg0 ⟨none⟩ w0 envDead).state [] ⟨false, true, false, false⟩ = .ok (⟨none⟩, files2))
      ∧ (start cfg0 ⟨none⟩ w0 envReady).outcome ≠ .alreadyRunning) :=
  ⟨by decide, by decide,
   C2_start_after_failure cfg0 w0 w0 envDead envReady [] ⟨false, true, false, false⟩ (by decide) (by decide)⟩

/-- C3 counterexample: a state whose stored handle refers to an already
exited child. is_running is false, yet start() returns at the already-running
guard without spawning, because the guard tests only that the handle is not
None, not that the process is alive. -/
theorem C3_counterexample :
    is_running ⟨some ⟨false⟩⟩ = false
    ∧ (start cfg0 ⟨some ⟨false⟩⟩ w0 envReady).outcome = .alreadyRunning
    ∧ (start cfg0 ⟨some ⟨false⟩⟩ w0 envReady).state = ⟨some ⟨false⟩⟩ := by
  decide

/-- C3 (amended): start() declines to spawn exactly when a process handle
exists, whether or not that process is alive; when it declines it changes
neither the manager state nor the world. In particular a handle to a live
process makes start() log and return without spawning, but handle existence
alone, not liveness, is the deciding condition. -/
theorem C3_decline_iff_handle (cfg : PGliteConfig) (st : MgrState) (w : World)
    (env : StartEnv) :
    ((start cfg st w env).outcome = .alreadyRunning ↔ st.process.isSome = true)
    ∧ (st.process.isSome = true → start cfg st w env = ⟨st, w, .alreadyRunning⟩) := by
  refine ⟨⟨fun h => ?_, fun h => by simp [start, h]⟩, fun h => by simp [start, h]⟩
  by_cases hs : st.process.isSome = true
  · exact hs
  · exfalso
    simp only [Bool.not_eq_true] at hs
    cases hl : readinessLoop env false 0 (loopFuel cfg) <;>
      simp [start, hs, hl] at h

/-- C3 witness: the amended theorem applied to a live-handle state. -/
theorem C3_decline_iff_handle_witness :
    (((start cfg0 ⟨some ⟨true⟩⟩ w0 envReady).outcome = .alreadyRunning) ↔ (MgrState.mk (some ⟨true⟩)).process.isSome = true)
    ∧ start cfg0 ⟨some ⟨true⟩⟩ w0 envReady = ⟨⟨some ⟨true⟩⟩, w0, .alreadyRunning⟩ :=
  ⟨(C3_decline_iff_handle cfg0 ⟨some ⟨true⟩⟩ w0 envReady).1,
   (C3_decline_iff_handle cfg0 ⟨some ⟨true⟩⟩ w0 envReady).2 (by decide)⟩

/-- C4 counterexample: supervisors A and B have distinct endpoint
directories, and each child works in its own endpoint directory, distinct
from the endpoint directory of the other supervisor; yet the reclamation scan
of A kills both children, because the containment heuristic is a plain
substring test and /tmp/a occurs inside /tmp/ab. -/
theorem C4_counterexample :
    pathParent cfgA.socket_path = "/tmp/a"
    ∧ pathParent cfgB.socket_path = "/tmp/ab"
    ∧ pathParent cfgA.socket_path ≠ pathParent cfgB.socket_path
    ∧ entryA.cwd ≠ pathParent cfgB.socket_path
    ∧ entryB.cwd ≠ pathParent cfgA.socket_path
    ∧ kill_existing_processes cfgA [entryA, entryB] = [41, 42] := by
  decide

/-- C4 (amended): the reclamation scan never kills a candidate whose working
directory and the target endpoint directory are substring-incomparable: when
neither string occurs inside the other, the scan kills nothing, whatever the
command lines say. Mere distinctness of the directories does not suffice,
since distinct substring-related paths such as /tmp/a and /tmp/ab still
cross-match. -/
theorem C4_no_kill_without_substring (cfg : PGliteConfig)
    (table : List ProcEntry)
    (h : ∀ q ∈ table,
        strIn (pathParent cfg.socket_path) q.cwd = false
        ∧ strIn q.cwd (pathParent cfg.socket_path) = false) :
    kill_existing_processes cfg table = [] := by
  unfold kill_existing_processes
  rw [List.filter_eq_nil_iff.mpr, List.map_nil]
  intro q hq
  have hqq := h q hq
  simp [shouldKill, dirHeuristic, hqq.1, hqq.2]

/-- C4 witness: the amended theorem applied to supervisor A and a candidate
working in an unrelated directory. -/
theorem C4_no_kill_without_substring_witness :
    (∀ q ∈ [entryFar],
        strIn (pathParent cfgA.socket_path) q.cwd = false
        ∧ strIn q.cwd (pathParent cfgA.socket_path) = false)
    ∧ kill_existing_processes cfgA [entryFar] = [] :=
  ⟨by decide, C4_no_kill_without_substring cfgA [entryFar] (by decide)⟩

/-- C5: stop() is unconditionally safe. It returns without error from every
starting state and environment, is a strict no-op when no handle is stored,
always leaves the handle cleared, and, when a handle was stored, cleanup is
configured and the unlink does not fail, the endpoint file no longer exists
afterwards. -/
theorem C5_stop_safe (cfg : PGliteConfig) (st : MgrState)
    (files : List String) (env : StopEnv) :
    ((stop cfg st files env).isOk = true)
    ∧ (st.process = none → stop cfg st files env = .ok (st, files))
    ∧ (∀ st2 files2, stop cfg st files env = .ok (st2, files2) → st2.process = none)
    ∧ (st.process.isSome = true → cfg.cleanup_on_exit = true →
        env.unlinkRaises = false →
        ∀ st2 files2, stop cfg st files env = .ok (st2, files2) →
          fsExists files2 cfg.socket_path = false) := by
  refine ⟨?_, ?_, ?_, ?_⟩
  · by_cases hn : st.process.isNone = true
    · simp [stop, hn, Except.isOk, Except.toBool]
    · simp only [Bool.not_eq_true] at hn
      cases hb : stopBody env <;>
        simp [stop, hn, hb, Except.isOk, Except.toBool]
  · intro h
    have hn : st.process.isNone = true := by simp [h]
    simp [stop, hn]
  · intro st2 files2 h
    by_cases hn : st.process.isNone = true
    · have hpn : st.process = none := Option.isNone_iff_eq_none.mp hn
      simp only [stop, hn, if_true, ite_true, Except.ok.injEq, Prod.mk.injEq] at h
      rw [← h.1, hpn]
    · simp only [Bool.not_eq_true] at hn
      cases hb : stopBody env <;>
        simp only [stop, hn, hb, Bool.false_eq_true, if_false, ite_false,
          Except.ok.injEq, Prod.mk.injEq] at h <;>
        rw [← h.1]
  · intro hsome hcl hun st2 files2 h
    have hn : st.process.isNone = false := by
      cases hp : st.process with
      | none => rw [hp] at hsome; cases hsome
      | some hh => rfl
    cases hb : stopBody env <;>
      simp only [stop, hn, hb, Bool.false_eq_true, if_false, ite_false, hcl,
        if_true, ite_true, Except.ok.injEq, Prod.mk.injEq] at h <;>
    · rw [← h.2, hun]
      exact fsExists_cleanupSocket cfg files

/-- C5 witness: the theorem applied to a live-handle state with cleanup
configured, an existing socket file, and a failing graceful wait. -/
theorem C5_stop_safe_witness :
    ((stop cfg0 ⟨some ⟨true⟩⟩ [cfg0.socket_path] ⟨false, false, false, false⟩).isOk = true)
    ∧ ((MgrState.mk (some ⟨true⟩)).process = none →
        stop cfg0 ⟨some ⟨true⟩⟩ [cfg0.socket_path] ⟨false, false, false, false⟩ = .ok (⟨some ⟨true⟩⟩, [cfg0.socket_path]))
    ∧ (∀ st2 files2, stop cfg0 ⟨some ⟨true⟩⟩ [cfg0.socket_path] ⟨false, false, false, false⟩ = .ok (st2, files2) → st2.process = none)
    ∧ ((MgrState.mk (some ⟨true⟩)).process.isSome = true → cfg0.cleanup_on_exit = true →
        (StopEnv.mk false false false false).unlinkRaises = false →
        ∀ st2 files2, stop cfg0 ⟨some ⟨true⟩⟩ [cfg0.socket_path] ⟨false, false, false, false⟩ = .ok (st2, files2) →
          fsExists files2 cfg0.socket_path = false) :=
  C5_stop_safe cfg0 ⟨some ⟨true⟩⟩ [cfg0.socket_path] ⟨false, false, false, false⟩

/-- C6 counterexample: the cleanup sequence of the timeout branch of start(),
when the child is still alive and does not exit within the bounded graceful
wait, ends with a wait() call that passes no timeout bound; so it is not the
case that every wait performed there is independently bounded. -/
theorem C6_counterexample :
    timeoutCleanupWaits true false = [some 5, none]
    ∧ ¬ (∀ b ∈ timeoutCleanupWaits true false, b.isSome = true) := by
  decide

/-- C6 (amended): with a launcher child that never creates the endpoint and
never exits, start() raises the timeout startup error; the polling loop is
bounded by the configured timeout (it consumes exactly loopFuel iterations of
the half-second interval) and the graceful-termination wait carries the bound
5. The wait that follows the forced kill, however, carries no timeout bound,
so termination of the cleanup additionally relies on the forced kill actually
reaping the child; that one wait is not independently bounded. -/
theorem C6_timeout_bounded (cfg : PGliteConfig) (w : World) (env : StartEnv)
    (hs : ∀ i, env.socketExists i = false)
    (ha : ∀ i, env.procAlive i = true) :
    (start cfg ⟨none⟩ w env).outcome = .raisedStartupError (timeoutMessage cfg)
    ∧ readinessLoop env false 0 (loopFuel cfg) = .timedOut
    ∧ (timeoutCleanupWaits true false).head? = some (some 5)
    ∧ (∀ b ∈ timeoutCleanupWaits true true, b.isSome = true)
    ∧ (timeoutCleanupWaits true false).getLast? = some none := by
  have hloop := readinessLoop_never_ready env hs ha (loopFuel cfg) false 0
  refine ⟨?_, hloop, by decide, by decide, by decide⟩
  simp [start, hloop]

/-- C6 witness: the amended theorem applied to the concrete never-ready
environment. -/
theorem C6_timeout_bounded_witness :
    (∀ i, envNever.socketExists i = false)
    ∧ (∀ i, envNever.procAlive i = true)
    ∧ ((start cfg0 ⟨none⟩ w0 envNever).outcome = .raisedStartupError (timeoutMessage cfg0)
      ∧ readinessLoop envNever false 0 (loopFuel cfg0) = .timedOut
      ∧ (timeoutCleanupWaits true false).head? = some (some 5)
      ∧ (∀ b ∈ timeoutCleanupWaits true true, b.isSome = true)
      ∧ (timeoutCleanupWaits true false).getLast? = some none) :=
  ⟨fun _ => rfl, fun _ => rfl,
   C6_timeout_bounded cfg0 w0 envNever (fun _ => rfl) (fun _ => rfl)⟩

/-- C7: each accessor succeeds exactly when is_running() is true at call
time; when it fails it raises the fixed not-running error, and when it
succeeds it returns a string in which the configured endpoint path occurs;
is_running itself is true exactly when a handle is stored and the synchronous
poll reports the child alive. -/
theorem C7_accessors (cfg : PGliteConfig) (st : MgrState) :
    ((get_connection_string cfg st).isOk = is_running st)
    ∧ ((get_dsn cfg st).isOk = is_running st)
    ∧ ((get_psycopg_uri cfg st).isOk = is_running st)
    ∧ (is_running st = false →
        get_connection_string cfg st = .error notRunningMsg
        ∧ get_dsn cfg st = .error notRunningMsg
        ∧ get_psycopg_uri cfg st = .error notRunningMsg)
    ∧ (is_running st = true →
        (∃ a b, get_connection_string cfg st = .ok (a ++ cfg.socket_path ++ b))
        ∧ (∃ a b, get_dsn cfg st = .ok (a ++ cfg.socket_path ++ b))
        ∧ (∃ a b, get_psycopg_uri cfg st = .ok (a ++ cfg.socket_path ++ b)))
    ∧ (is_running st = true ↔ ∃ h, st.process = some h ∧ h.alive = true) := by
  refine ⟨?_, ?_, ?_, ?_, ?_, ?_⟩
  · cases h : is_running st <;>
      simp [get_connection_string, h, Except.isOk, Except.toBool]
  · cases h : is_running st <;>
      simp [get_dsn, h, Except.isOk, Except.toBool]
  · cases h : is_running st <;>
      simp [get_psycopg_uri, h, Except.isOk, Except.toBool]
  · intro h
    refine ⟨?_, ?_, ?_⟩ <;>
      simp [get_connection_string, get_dsn, get_psycopg_uri, h]
  · intro h
    refine ⟨⟨"postgresql+psycopg://postgres:postgres@/postgres?host=", "", ?_⟩,
      ⟨"host=", " dbname=postgres user=postgres", ?_⟩,
      ⟨"postgresql://postgres:postgres@/postgres?host=", "", ?_⟩⟩ <;>
      simp [get_connection_string, get_dsn, get_psycopg_uri, h,
        config_get_connection_string, config_get_dsn, config_get_psycopg_uri,
        String.append_empty, String.append_assoc]
  · cases hS : st.process with
    | none => simp [is_running, hS, pollAlive]
    | some hh => cases hA : hh.alive <;> simp [is_running, hS, pollAlive, hA]

/-- C7 witness: the theorem applied at a running state and at a not-running
state. -/
theorem C7_accessors_witness :
    (is_running ⟨some ⟨true⟩⟩ = true
      ∧ (∃ a b, get_connection_string cfg0 ⟨some ⟨true⟩⟩ = .ok (a ++ cfg0.socket_path ++ b)))
    ∧ (is_running ⟨none⟩ = false
      ∧ get_dsn cfg0 ⟨none⟩ = .error notRunningMsg) :=
  ⟨⟨by decide, ((C7_accessors cfg0 ⟨some ⟨true⟩⟩).2.2.2.2.1 (by decide)).1⟩,
   ⟨by decide, ((C7_accessors cfg0 ⟨none⟩).2.2.2.1 (by decide)).2.1⟩⟩

/-- C8: the readiness retry loop performs at most maxRetries probe attempts,
every sleep between consecutive attempts is the fixed configured delay, the
boolean result is true exactly when some attempt within the budget reports
ready, and the loop never raises: with the probe modelled as possibly
throwing, the guarded loop always returns ok with the same boolean. -/
theorem C8_wait_for_ready (probe : Nat → ProbeOutcome) (delay : ℚ)
    (maxRetries : Nat) (hpos : 1 ≤ maxRetries) :
    wfrE probe 0 maxRetries = .ok (wait_for_ready_basic probe maxRetries)
    ∧ wfrAttempts probe 0 maxRetries ≤ maxRetries
    ∧ (wait_for_ready_basic probe maxRetries = true ↔ ∃ i, i < maxRetries ∧ probe i = .ok)
    ∧ (∀ x ∈ wait_sleeps probe delay maxRetries, x = delay)
    ∧ wait_for_ready probe maxRetries = wait_for_ready_basic probe maxRetries := by
  refine ⟨wfrE_eq_ok probe maxRetries 0, wfrAttempts_le probe maxRetries 0, ?_, ?_, rfl⟩
  · rw [wait_for_ready_basic, wfrResult_iff probe maxRetries 0]
    simp only [Nat.zero_add]
  · exact wfrSleeps_all probe delay maxRetries maxRetries 0

/-- C8 witness: the theorem applied to the three-outcome probe with five
attempts and unit delay. -/
theorem C8_wait_for_ready_witness :
    (1 ≤ 5)
    ∧ (wfrE probe3 0 5 = .ok (wait_for_ready_basic probe3 5)
      ∧ wfrAttempts probe3 0 5 ≤ 5
      ∧ (wait_for_ready_basic probe3 5 = true ↔ ∃ i, i < 5 ∧ probe3 i = .ok)
      ∧ (∀ x ∈ wait_sleeps probe3 (1 : ℚ) 5, x = 1)
      ∧ wait_for_ready probe3 5 = wait_for_ready_basic probe3 5) :=
  ⟨by decide, C8_wait_for_ready probe3 1 5 (by decide)⟩

/-- C9 counterexample: the message of the child-died startup error is the
same whatever the elapsed time at the moment of death, and is exactly the
fixed text followed by the captured output; so the message does not carry
the elapsed time since spawn. -/
theorem C9_counterexample :
    deathMessage (some (some "boom")) 0 = deathMessage (some (some "boom")) 999
    ∧ deathMessage (some (some "boom")) 999 = "PGlite process died during startup. Output: boom" := by
  decide

/-- C9 (amended): when the child exits during the readiness loop, the
diagnostic output is read under the fixed two second secondary timeout and
the raised message is the fixed text followed by the diagnostic: the captured
output truncated to its first 1000 characters, a placeholder when there is no
output, and a placeholder when the bounded read expires. The message does not
include the elapsed time since spawn. -/
theorem C9_death_message (s : String) (hs : s ≠ "") (t : Nat) :
    deathMessage (some (some s)) t = "PGlite process died during startup. Output: " ++ pySlice s 1000
    ∧ (∀ co, (diagnosticOutput co).length ≤ 1000)
    ∧ (pySlice s 1000).length ≤ 1000
    ∧ diagnosticOutput none = "Process output timeout"
    ∧ diagnosticOutput (some none) = "No output"
    ∧ communicateTimeoutBound = 2 := by
  refine ⟨?_, ?_, ?_, rfl, rfl, rfl⟩
  · simp [deathMessage, diagnosticOutput, limitOutput, hs]
  · intro co
    cases co with
    | none => decide
    | some stdout =>
      cases stdout with
      | none => decide
      | some s2 =>
        by_cases h2 : s2 = ""
        · simp only [diagnosticOutput, limitOutput, h2, if_true, ite_true]
          decide
        · simp only [diagnosticOutput, limitOutput, h2, if_false, ite_false]
          rw [show (pySlice s2 1000).length = (s2.data.take 1000).length from rfl,
            List.length_take]
          omega
  · rw [show (pySlice s 1000).length = (s.data.take 1000).length from rfl,
      List.length_take]
    omega

/-- C9 witness: the amended theorem applied to a concrete nonempty output. -/
theorem C9_death_message_witness :
    ("boom" ≠ "")
    ∧ (deathMessage (some (some "boom")) 7 = "PGlite process died during startup. Output: " ++ pySlice "boom" 1000
      ∧ (∀ co, (diagnosticOutput co).length ≤ 1000)
      ∧ (pySlice "boom" 1000).length ≤ 1000
      ∧ diagnosticOutput none = "Process output timeout"
      ∧ diagnosticOutput (some none) = "No output"
      ∧ communicateTimeoutBound = 2) :=
  ⟨by decide, C9_death_message "boom" (by decide) 7⟩

/-- C10: start() restores the process-wide working directory on every exit
path. Whenever the working directory saved on entry is nonempty (os.getcwd
never returns the empty string), the world returned by start() carries the
same working directory as the world passed in, whether start() returned at
the guard, succeeded, raised the child-died error, or raised the timeout
error. -/
theorem C10_cwd_restored (cfg : PGliteConfig) (st : MgrState) (w : World)
    (env : StartEnv) (h : w.cwd ≠ "") :
    (start cfg st w env).world.cwd = w.cwd := by
  by_cases hs : st.process.isSome = true
  · simp [start, hs]
  · simp only [Bool.not_eq_true] at hs
    simp [start, hs, h]

/-- C10 witness: the theorem applied to the guard path, the success path, the
child-died path, and the timeout path, at the concrete fixtures. -/
theorem C10_cwd_restored_witness :
    (w0.cwd ≠ "")
    ∧ (start cfg0 ⟨some ⟨true⟩⟩ w0 envReady).world.cwd = w0.cwd
    ∧ (start cfg0 ⟨none⟩ w0 envReady).world.cwd = w0.cwd
    ∧ (start cfg0 ⟨none⟩ w0 envDead).world.cwd = w0.cwd
    ∧ (start cfg0 ⟨none⟩ w0 envNever).world.cwd = w0.cwd :=
  ⟨by decide,
   C10_cwd_restored cfg0 ⟨some ⟨true⟩⟩ w0 envReady (by decide),
   C10_cwd_restored cfg0 ⟨none⟩ w0 envReady (by decide),
   C10_cwd_restored cfg0 ⟨none⟩ w0 envDead (by decide),
   C10_cwd_restored cfg0 ⟨none⟩ w0 envNever (by decide)⟩

end PyPglite
